import Mathlib

/-!
Verification of the iron HTTP middleware core (src/iron.rs, src/request/mod.rs)
against its specification.

The embedding translates the live Rust code. Components of the crate that are
referenced from the two source files but whose own source is not available
(the `Url` type of `src/request/url.rs`, the `Response`/`IronError` types, the
`typemap` store) are modelled from the specification; each such definition is
marked `Modelled from the spec:` in its doc comment.
-/

set_option autoImplicit false

namespace Iron

/-! ## Basic wire-level data -/

/-- `http::Version`. Only the variants relevant to the code's comparison with
`HttpVersion::Http11` are needed; `code` gives the numeric order used for
`v < HttpVersion::Http11`. -/
inductive HttpVersion where
  | http09
  | http10
  | http11
  | http2
  | http3
  deriving DecidableEq

/-- Numeric encoding of an HTTP version (major*10 + minor), used to compare
versions the way the source's `v < HttpVersion::Http11` does. -/
def HttpVersion.code : HttpVersion → Nat
  | .http09 => 9
  | .http10 => 10
  | .http11 => 11
  | .http2 => 20
  | .http3 => 30

/-- `std::net::IpAddr`: an IPv4 address is four octets; an IPv6 address is
carried by its display string (its internal structure is never inspected by
the code under verification, only rendered). -/
inductive IpAddr where
  | v4 (a b c d : Nat)
  | v6 (s : String)
  deriving DecidableEq

/-- `Display` rendering of an IP address. -/
def IpAddr.render : IpAddr → String
  | .v4 a b c d => toString a ++ "." ++ toString b ++ "." ++ toString c ++ "." ++ toString d
  | .v6 s => s

/-- `std::net::SocketAddr`: an IP address together with a port. -/
structure SocketAddr where
  ip : IpAddr
  port : Nat
  deriving DecidableEq

/-- `Display` rendering of a socket address (IPv6 addresses are bracketed). -/
def SocketAddr.render (a : SocketAddr) : String :=
  match a.ip with
  | .v4 _ _ _ _ => a.ip.render ++ ":" ++ toString a.port
  | .v6 _ => "[" ++ a.ip.render ++ "]:" ++ toString a.port

/-- The `_Protocol` enumeration of src/iron.rs. -/
inductive ProtocolKind where
  | Http
  | Https
  deriving DecidableEq

/-- `Protocol`, the newtype wrapper `Protocol(_Protocol)` of src/iron.rs. -/
structure Protocol where
  prot : ProtocolKind
  deriving DecidableEq

/-- `Protocol::http()`. -/
def Protocol.http : Protocol := ⟨ProtocolKind.Http⟩

/-- `Protocol::https()`. -/
def Protocol.https : Protocol := ⟨ProtocolKind.Https⟩

/-- `Protocol::name`, the scheme name used in resolved URLs. -/
def Protocol.name (p : Protocol) : String :=
  match p.prot with
  | ProtocolKind.Http => "http"
  | ProtocolKind.Https => "https"

/-- A header map, as the list of (name, value) pairs the raw request carries.
Header names are compared case-insensitively. -/
def HeaderMap : Type := List (String × String)

/-- The raw transport-level request (`hyper::Request`), restricted to the
fields the code under verification reads: the request target as the string
`req.uri().to_string()` renders, the headers, method, version and body. -/
structure HttpRequest where
  uri : String
  headers : HeaderMap
  method : String
  version : HttpVersion
  body : String

/-! ## The URL type and its parser -/

/-- Modelled from the spec: the `Url` type re-exported from
`src/request/url.rs`, which is not among the available sources. §3: "URL —
scheme, host, optional port, path, optional query, optional fragment.
Invariant: scheme is always present and lower-case; produced only by
successful parse/resolution". -/
structure Url where
  scheme : String
  host : String
  port : Option Nat
  path : String
  query : Option String
  fragment : Option String
  deriving DecidableEq

/-- Splits a character list at the first `"://"`, returning the part before
(the scheme candidate) and the part after; `none` when no `"://"` occurs. -/
def splitAtSchemeSep : List Char → Option (List Char × List Char)
  | [] => none
  | ':' :: '/' :: '/' :: rest => some ([], rest)
  | c :: rest =>
    match splitAtSchemeSep rest with
    | some (pre, post) => some (c :: pre, post)
    | none => none

/-- Splits a character list at the first character satisfying `stop`; the
stopping character stays at the head of the second component. -/
def splitUntil (stop : Char → Bool) : List Char → List Char × List Char
  | [] => ([], [])
  | c :: rest =>
    if stop c then ([], c :: rest)
    else
      let (a, b) := splitUntil stop rest
      (c :: a, b)

/-- Numeric value of a list of decimal digits. -/
def digitsToNat (cs : List Char) : Nat :=
  cs.foldl (fun n c => 10 * n + (c.toNat - 48)) 0

/-- A port component: nonempty and all decimal digits. -/
def parsePort (cs : List Char) : Option Nat :=
  if cs.isEmpty then none
  else if cs.all Char.isDigit then some (digitsToNat cs) else none

/-- A URI scheme: a letter followed by letters, digits, `+`, `-` or `.`. -/
def isValidScheme : List Char → Bool
  | [] => false
  | c :: rest => c.isAlpha && rest.all (fun d => d.isAlpha || d.isDigit || d == '+' || d == '-' || d == '.')

/-- Splits an authority component into host and optional port. IPv6 hosts are
bracketed and keep their brackets, matching how they are later re-rendered
inside a URL. -/
def parseAuthority (cs : List Char) : Except String (String × Option Nat) :=
  match cs with
  | '[' :: rest =>
    let (h, r) := splitUntil (fun c => c == ']') rest
    match r with
    | ']' :: [] => Except.ok ("[" ++ String.mk h ++ "]", none)
    | ']' :: ':' :: p =>
      match parsePort p with
      | some n => Except.ok ("[" ++ String.mk h ++ "]", some n)
      | none => Except.error "invalid port number"
    | _ => Except.error "invalid IPv6 address"
  | _ =>
    let (h, r) := splitUntil (fun c => c == ':') cs
    if h.isEmpty then Except.error "empty host"
    else
      match r with
      | ':' :: p =>
        match parsePort p with
        | some n => Except.ok (String.mk h, some n)
        | none => Except.error "invalid port number"
      | _ => Except.ok (String.mk h, none)

/-- Splits off an optional suffix introduced by `mark`. -/
def splitSuffix (mark : Char) (cs : List Char) : List Char × Option (List Char) :=
  let (a, b) := splitUntil (fun c => c == mark) cs
  match b with
  | _ :: suffix => (a, some suffix)
  | [] => (a, none)

/-- Modelled from the spec: `Url::parse` of `src/request/url.rs` (not among
the available sources). §6: the URL type "must support parsing a string into
{scheme, host, port?, path, query?, fragment?}"; §3: the scheme is mandatory
and lower-case, so a string without a scheme (a bare path, or an
asterisk-form target) fails to parse. Errors are descriptive strings, as
`Request::from_http` propagates them into its `Result<Request, String>`. -/
def Url.parse (s : String) : Except String Url :=
  match splitAtSchemeSep s.toList with
  | none => Except.error "relative URL without a base"
  | some (schemeCs, rest) =>
    if isValidScheme schemeCs then
      let (authCs, tail) := splitUntil (fun c => c == '/' || c == '?' || c == '#') rest
      match parseAuthority authCs with
      | Except.error e => Except.error e
      | Except.ok (host, port) =>
        let (beforeFrag, frag) := splitSuffix '#' tail
        let (pathCs, query) := splitSuffix '?' beforeFrag
        Except.ok
          { scheme := String.mk (schemeCs.map Char.toLower)
            host := host
            port := port
            path := if pathCs.isEmpty then "/" else String.mk pathCs
            query := query.map String.mk
            fragment := frag.map String.mk }
    else Except.error "relative URL without a base"

/-- Renders a URL back to a string (§6: round-trip component-equal). -/
def Url.render (u : Url) : String :=
  u.scheme ++ "://" ++ u.host
    ++ (match u.port with | some p => ":" ++ toString p | none => "")
    ++ u.path
    ++ (match u.query with | some q => "?" ++ q | none => "")
    ++ (match u.fragment with | some f => "#" ++ f | none => "")

/-- A request target is in absolute-URI form when it starts with a valid
scheme followed by `"://"`. -/
def isAbsoluteUriForm (s : String) : Bool :=
  match splitAtSchemeSep s.toList with
  | some (schemeCs, _) => isValidScheme schemeCs
  | none => false

/-! ## The type-indexed extension store -/

/-- Modelled from the spec: the `typemap::TypeMap` store behind
`Request.extensions` (an external crate, not among the available sources).
§3/§4.2: "mapping from a type identity to one boxed value of that type"; "at
most one stored value per distinct type". Type identities (`TypeId`) are
abstracted as `Nat`; the family `τ` gives each type identity its type of
values, so two distinct identities never collide even when `τ` assigns them
structurally identical types. -/
def TypeMap (τ : Nat → Type) : Type :=
  (k : Nat) → Option (τ k)

/-- `TypeMap::new()`: the empty store. -/
def TypeMap.empty {τ : Nat → Type} : TypeMap τ :=
  fun _ => none

/-- `set<T>(value)`: stores `value` under the type identity `k`, replacing any
prior value of that type. -/
def TypeMap.set {τ : Nat → Type} (k : Nat) (v : τ k) (m : TypeMap τ) : TypeMap τ :=
  fun q => if h : q = k then some (cast (congrArg τ h).symm v) else m q

/-- `get<T>()`: the stored value under type identity `k`, if present. -/
def TypeMap.get {τ : Nat → Type} (k : Nat) (m : TypeMap τ) : Option (τ k) :=
  m k

/-- `remove<T>()`: drops the value under type identity `k`; the removed value,
when present, is the one `get` would have returned. -/
def TypeMap.remove {τ : Nat → Type} (k : Nat) (m : TypeMap τ) : TypeMap τ :=
  fun q => if q = k then none else m q

/-! ## The Request envelope and its constructor -/

/-- The `Request` struct of src/request/mod.rs (the private `_p : ()` marker
field is dropped). The whole development is parametric in the type family `τ`
interpreting extension-type identities. -/
structure Request (τ : Nat → Type) where
  url : Url
  local_addr : SocketAddr
  headers : HeaderMap
  body : String
  method : String
  extensions : TypeMap τ
  version : HttpVersion

/-- The `Debug` impl for `Request` in src/request/mod.rs: it prints only the
url, method and local address. -/
def Request.debugFmt {τ : Nat → Type} (r : Request τ) : String :=
  "Request \x7b\n"
    ++ "    url: " ++ r.url.render ++ "\n"
    ++ "    method: " ++ r.method ++ "\n"
    ++ "    local_addr: " ++ r.local_addr.render ++ "\n"
    ++ "\x7d"

/-- `Request::from_http` of src/request/mod.rs. The live code parses
`req.uri().to_string()` directly with `Url::parse` — the commented-out
branching on absolute-URI / absolute-path / Host header / HTTP version is NOT
part of the compiled function — and on success copies headers, body, method
and version across and installs a fresh empty `TypeMap`. The `protocol`
argument is accepted but unused by the live code. -/
def Request.from_http (τ : Nat → Type) (req : HttpRequest) (local_addr : SocketAddr)
    (protocol : Protocol) : Except String (Request τ) :=
  match Url.parse req.uri with
  | Except.ok url =>
    Except.ok
      { url := url
        local_addr := local_addr
        headers := req.headers
        body := req.body
        method := req.method
        extensions := TypeMap.empty
        version := req.version }
  | Except.error e => Except.error e

/-- The resolved URL component of `Request::from_http`'s result. -/
def resolvedUrl (τ : Nat → Type) (req : HttpRequest) (local_addr : SocketAddr)
    (protocol : Protocol) : Except String Url :=
  (Request.from_http τ req local_addr protocol).map Request.url

/-! ## Responses, handler failures and the dispatch loop -/

/-- Modelled from the spec: iron's `Response` envelope (src/response/, not
among the available sources). §3: "status code, header map, and body stream;
... also carrying an Extensible Context". The status is a numeric HTTP status
code. -/
structure Response (τ : Nat → Type) where
  status : Nat
  headers : HeaderMap
  body : String
  extensions : TypeMap τ

/-- Modelled from the spec: iron's `IronError` (src/error.rs, not among the
available sources), the `HandlerFailure` of the spec. §3: "a typed error
value plus an attached Response Envelope representing the best available
fallback response". `ε` is the application-defined error payload type; the
fields mirror the `e.error` / `e.response` accesses in src/iron.rs. -/
structure HandlerFailure (τ : Nat → Type) (ε : Type) where
  error : ε
  response : Response τ

/-- The `hyper::Response` handed back to the transport, restricted to the
parts the code under verification sets: status and body. `HttpResponse::new`
gives the `http` crate's default status `200 OK`. -/
structure HttpResponse where
  status : Nat
  body : String
  deriving DecidableEq

/-- `HttpResponse::new(body)`: default status 200. -/
def HttpResponse.new (body : String) : HttpResponse :=
  { status := 200, body := body }

/-- `bad_request()` of src/iron.rs: a 200-default response downgraded to
status `Status::BAD_REQUEST` (400) with `Body::empty()`, wrapped in `Ok`.
The error side of `HttpResult` is hyper's transport error, never produced
here; it is carried as a string. -/
def bad_request : Except String HttpResponse :=
  Except.ok { HttpResponse.new "" with status := 400 }

/-- The two `error!` log lines of `Iron::http` in src/iron.rs. -/
inductive LogEntry (ε : Type) where
  | errorHandling (reqDebug : String) (err : ε)
  | errorCreating (msg : String)
  deriving DecidableEq

/-- Everything observable about one pass through the `service_fn` closure of
`Iron::http`: the `hyper` response value returned to the transport, the log
lines emitted, whether the handler was invoked, and the `res` binding the
closure computes (the handler's response on success, the failure's carried
response otherwise; `none` when request construction failed). -/
structure ServiceOutcome (τ : Nat → Type) (ε : Type) where
  httpRes : Except String HttpResponse
  log : List (LogEntry ε)
  handlerInvoked : Bool
  selectedRes : Option (Response τ)

/-- The body of the `service_fn` closure in `Iron::http` (src/iron.rs lines
126–153), for one raw request. `addr` is the bind address the closure
captures; the protocol is hard-wired to `Protocol(_Protocol::Http)`. The
handler takes the request by `&mut`; no claim involves handler-side mutation
of the request, so it is modelled as a pure function. Note the closure binds
`res` (handler response or failure fallback, with the failure logged against
the request's debug output) but then returns a fresh
`HttpResponse::new(hyper::Body::from(""))` — the `write_back` call is
commented out in the source. -/
def ironService {τ : Nat → Type} {ε : Type}
    (handler : Request τ → Except (HandlerFailure τ ε) (Response τ))
    (addr : SocketAddr) (req : HttpRequest) : ServiceOutcome τ ε :=
  match Request.from_http τ req addr Protocol.http with
  | Except.ok r =>
    match handler r with
    | Except.ok res =>
      { httpRes := Except.ok (HttpResponse.new "")
        log := []
        handlerInvoked := true
        selectedRes := some res }
    | Except.error e =>
      { httpRes := Except.ok (HttpResponse.new "")
        log := [LogEntry.errorHandling r.debugFmt e.error]
        handlerInvoked := true
        selectedRes := some e.response }
  | Except.error e =>
    { httpRes := bad_request
      log := [LogEntry.errorCreating e]
      handlerInvoked := false
      selectedRes := none }

/-! ## The spec-side URL resolver (for comparison with the live code) -/

/-- The classification of a raw request target (spec §2/§4.1 and the
commented-out `match uri` of src/request/mod.rs). -/
inductive RequestTarget where
  | absoluteUri (s : String)
  | absolutePath (s : String)
  | other (s : String)

/-- Whether a target string begins with `/` (absolute-path form). -/
def startsWithSlash (s : String) : Bool :=
  match s.toList with
  | '/' :: _ => true
  | _ => false

/-- Classifies a raw target string. -/
def classifyTarget (s : String) : RequestTarget :=
  if isAbsoluteUriForm s then RequestTarget.absoluteUri s
  else if startsWithSlash s then RequestTarget.absolutePath s
  else RequestTarget.other s

/-- The spec's resolution-error taxonomy (§7). -/
inductive ResolutionError where
  | malformedUri (s : String)
  | missingHost
  | unsupportedTarget
  deriving DecidableEq

/-- A typed Host header value: hostname plus optional port (spec §6). -/
structure HostHeader where
  hostname : String
  port : Option Nat
  deriving DecidableEq

/-- Parses a Host header value into hostname and optional port; a bracketed
IPv6 literal keeps its brackets as the hostname. -/
def parseHostValue (v : String) : HostHeader :=
  match v.toList with
  | '[' :: rest =>
    let (h, r) := splitUntil (fun c => c == ']') rest
    match r with
    | ']' :: ':' :: p =>
      match parsePort p with
      | some n => { hostname := "[" ++ String.mk h ++ "]", port := some n }
      | none => { hostname := v, port := none }
    | _ => { hostname := "[" ++ String.mk h ++ "]", port := none }
  | cs =>
    let (h, r) := splitUntil (fun c => c == ':') cs
    match r with
    | ':' :: p =>
      match parsePort p with
      | some n => { hostname := String.mk h, port := some n }
      | none => { hostname := v, port := none }
    | _ => { hostname := String.mk h, port := none }

/-- The typed accessor for the Host header (spec §6): first header whose name
is `host` up to case. -/
def hostHeaderOf (hs : HeaderMap) : Option HostHeader :=
  (List.find? (fun p => p.1.toList.map Char.toLower == "host".toList) hs).map
    (fun p => parseHostValue p.2)

/-- The URL string `scheme://host[:port]path` built from a Host header
(spec §4.1, and the commented-out code of src/request/mod.rs). -/
def hostUrlString (protocol : Protocol) (hh : HostHeader) (path : String) : String :=
  match hh.port with
  | some p => protocol.name ++ "://" ++ hh.hostname ++ ":" ++ toString p ++ path
  | none => protocol.name ++ "://" ++ hh.hostname ++ path

/-- The URL string built from the local socket address (spec §4.1: "IPv4
renders `scheme://ip:port path`; IPv6 renders `scheme://[ip]:port path`"). -/
def localUrlString (protocol : Protocol) (addr : SocketAddr) (path : String) : String :=
  match addr.ip with
  | IpAddr.v4 _ _ _ _ =>
    protocol.name ++ "://" ++ addr.ip.render ++ ":" ++ toString addr.port ++ path
  | IpAddr.v6 _ =>
    protocol.name ++ "://[" ++ addr.ip.render ++ "]:" ++ toString addr.port ++ path

/-- Modelled from the spec: the §4.1 URL Resolver algorithm, stated for
comparison with what the live `Request::from_http` actually does (the same
algorithm appears as commented-out code in src/request/mod.rs). -/
def specResolve (target : String) (version : HttpVersion) (headers : HeaderMap)
    (local_addr : SocketAddr) (protocol : Protocol) : Except ResolutionError Url :=
  match classifyTarget target with
  | RequestTarget.absoluteUri s =>
    match Url.parse s with
    | Except.ok u => Except.ok u
    | Except.error e => Except.error (ResolutionError.malformedUri e)
  | RequestTarget.absolutePath p =>
    match hostHeaderOf headers with
    | some hh =>
      let s := hostUrlString protocol hh p
      match Url.parse s with
      | Except.ok u => Except.ok u
      | Except.error _ => Except.error (ResolutionError.malformedUri s)
    | none =>
      if version.code < HttpVersion.http11.code then
        let s := localUrlString protocol local_addr p
        match Url.parse s with
        | Except.ok u => Except.ok u
        | Except.error _ => Except.error (ResolutionError.malformedUri s)
      else Except.error ResolutionError.missingHost
  | RequestTarget.other _ => Except.error ResolutionError.unsupportedTarget

/-! ## Server bootstrap configuration -/

/-- `std::time::Duration`, modelled in whole seconds: the code only ever
builds durations with `Duration::from_secs`. -/
def Duration : Type := Nat

/-- The `Timeouts` struct of src/iron.rs: three independent optional
durations; `None` turns the corresponding timeout off. -/
structure Timeouts where
  keep_alive : Option Duration
  read : Option Duration
  write : Option Duration

/-- `impl Default for Timeouts` of src/iron.rs. -/
def Timeouts.default : Timeouts :=
  { keep_alive := some (5 : Nat)
    read := some (30 : Nat)
    write := some (1 : Nat) }

/-- The `Iron` struct of src/iron.rs: handler, timeouts and thread count. -/
structure Iron (H : Type) where
  handler : H
  timeouts : Timeouts
  threads : Nat

/-- `Iron::new` of src/iron.rs. `num_cpus::get()` (the machine's available
parallelism) is an environment read, passed here as the `numCpus` argument. -/
def Iron.new {H : Type} (numCpus : Nat) (handler : H) : Iron H :=
  { handler := handler
    timeouts := Timeouts.default
    threads := 8 * numCpus }

/-! ## Concrete fixtures for evaluating the code at specific inputs -/

/-- The constant extension-type family used at concrete inputs. -/
abbrev natFam : Nat → Type := fun _ => Nat

/-- A concrete local/bind address, `127.0.0.1:3000`. -/
def addr0 : SocketAddr := { ip := IpAddr.v4 127 0 0 1, port := 3000 }

/-- A well-formed raw request with an absolute-URI target. -/
def reqOk : HttpRequest :=
  { uri := "http://example.com/", headers := [], method := "GET",
    version := HttpVersion.http11, body := "" }

/-- The URL `reqOk`'s target parses to. -/
def urlOk : Url :=
  { scheme := "http", host := "example.com", port := none, path := "/",
    query := none, fragment := none }

/-- The `Request` that `Request.from_http` builds from `reqOk` at `addr0`. -/
def rOk : Request natFam :=
  { url := urlOk, local_addr := addr0, headers := [], body := "", method := "GET",
    extensions := TypeMap.empty, version := HttpVersion.http11 }

/-- A concrete empty extension store over `natFam`. -/
def mEmpty : TypeMap natFam := TypeMap.empty

/-- A concrete 503 response envelope a handler may produce or attach. -/
def resp503 : Response natFam :=
  { status := 503, headers := [], body := "service unavailable",
    extensions := TypeMap.empty }

/-- A handler that always succeeds with `resp503`. -/
def hOk503 : Request natFam → Except (HandlerFailure natFam String) (Response natFam) :=
  fun _ => Except.ok resp503

/-- A handler that always fails, carrying `resp503` as its fallback. -/
def hFail503 : Request natFam → Except (HandlerFailure natFam String) (Response natFam) :=
  fun _ => Except.error { error := "boom", response := resp503 }

/-- An absolute-URI-target request carrying a Host header that differs from
the target's own authority. -/
def reqAbs : HttpRequest :=
  { uri := "https://ex.org:81/p?q#f", headers := [("Host", "ignored.example")],
    method := "GET", version := HttpVersion.http10, body := "" }

/-- An asterisk-form request (`OPTIONS *`). -/
def reqStar : HttpRequest :=
  { uri := "*", headers := [], method := "OPTIONS",
    version := HttpVersion.http11, body := "" }

/-- An absolute-path request used to exercise the bad-request path. -/
def reqPath : HttpRequest :=
  { uri := "/missing", headers := [], method := "GET",
    version := HttpVersion.http11, body := "" }

/-- An absolute-path request with a `Host: example.com:8080` header. -/
def reqHostPath : HttpRequest :=
  { uri := "/index.html", headers := [("Host", "example.com:8080")],
    method := "GET", version := HttpVersion.http11, body := "" }

/-- An absolute-path HTTP/1.1 request with no Host header. -/
def reqNoHost11 : HttpRequest :=
  { uri := "/a", headers := [], method := "GET",
    version := HttpVersion.http11, body := "" }

/-- An absolute-path HTTP/1.0 request with no Host header. -/
def reqNoHost10 : HttpRequest :=
  { uri := "/a", headers := [], method := "GET",
    version := HttpVersion.http10, body := "" }

end Iron

namespace Iron

/-! ## Sanity checks of the URL parser on concrete strings -/

example : Url.parse "http://example.com:8080/index.html"
    = Except.ok { scheme := "http", host := "example.com", port := some 8080,
                  path := "/index.html", query := none, fragment := none } := rfl

example : Url.parse "/index.html" = Except.error "relative URL without a base" := rfl

example : Url.parse "*" = Except.error "relative URL without a base" := rfl

example : Url.parse "https://ex.org:81/p?q#f"
    = Except.ok { scheme := "https", host := "ex.org", port := some 81,
                  path := "/p", query := some "q", fragment := some "f" } := rfl

example : Url.parse "http://example.com/" = Except.ok urlOk := rfl

example : Url.parse "http://" = Except.error "empty host" := rfl

example : Url.parse "http://[::1]:3000/x" = Except.ok
    { scheme := "http", host := "[::1]", port := some 3000, path := "/x",
      query := none, fragment := none } := rfl

end Iron

namespace Iron

/-! ## Claim theorems -/

/-- C2: for every raw request whose target is an absolute URI, for any version
and any header set, `Request::from_http` resolves the URL to exactly the
result of parsing that URI directly (a Host header does not influence the
result), and a parse failure of the URI makes `from_http` return an error. -/
theorem c2_absolute_uri_parsed_directly (τ : Nat → Type) (req : HttpRequest)
    (addr : SocketAddr) (proto : Protocol) (h : isAbsoluteUriForm req.uri = true) :
    resolvedUrl τ req addr proto = Url.parse req.uri
    ∧ (∀ hs : HeaderMap, resolvedUrl τ { req with headers := hs } addr proto = Url.parse req.uri)
    ∧ (∀ e : String, Url.parse req.uri = Except.error e →
        Request.from_http τ req addr proto = Except.error e) := by
  have key : ∀ rq : HttpRequest,
      (Request.from_http τ rq addr proto).map Request.url = Url.parse rq.uri := by
    intro rq
    unfold Request.from_http
    cases hp : Url.parse rq.uri <;> rfl
  refine ⟨key req, fun hs => key { req with headers := hs }, fun e he => ?_⟩
  unfold Request.from_http
  rw [he]

/-- Witness for C2 at the concrete absolute-URI request `reqAbs`. -/
theorem c2_witness :
    isAbsoluteUriForm reqAbs.uri = true
    ∧ (resolvedUrl natFam reqAbs addr0 Protocol.http = Url.parse reqAbs.uri
       ∧ (∀ hs : HeaderMap,
            resolvedUrl natFam { reqAbs with headers := hs } addr0 Protocol.http = Url.parse reqAbs.uri)
       ∧ (∀ e : String, Url.parse reqAbs.uri = Except.error e →
            Request.from_http natFam reqAbs addr0 Protocol.http = Except.error e)) :=
  ⟨by decide, c2_absolute_uri_parsed_directly natFam reqAbs addr0 Protocol.http (by decide)⟩

/-- C3 (code bug): with an absolute-path target `/index.html` and Host header
`example.com:8080`, the claim says the resolved URL is
`http://example.com:8080/index.html`; the live `Request::from_http` never
consults the Host header (that branch is commented out) and instead feeds the
bare path to `Url::parse`, which fails.  The second conjunct shows the spec's
resolver produces exactly the claimed URL on the same input. -/
theorem c3_host_header_ignored_by_code :
    Request.from_http natFam reqHostPath addr0 Protocol.http
      = Except.error "relative URL without a base"
    ∧ specResolve "/index.html" HttpVersion.http11 [("Host", "example.com:8080")] addr0 Protocol.http
      = Except.ok { scheme := "http", host := "example.com", port := some 8080,
                    path := "/index.html", query := none, fragment := none } :=
  ⟨rfl, rfl⟩

/-- C4 (code bug): with an absolute-path target at HTTP/1.1 and no Host
header, the claim says resolution fails with `MissingHost`; the live code does
return an error, but it is `Url::parse`'s generic failure on the bare path —
the version/Host branch that would classify this as a missing host is
commented out.  The second conjunct shows the spec's resolver yields
`MissingHost` on the same input. -/
theorem c4_missing_host_branch_stubbed :
    Request.from_http natFam reqNoHost11 addr0 Protocol.http
      = Except.error "relative URL without a base"
    ∧ specResolve "/a" HttpVersion.http11 [] addr0 Protocol.http
      = Except.error ResolutionError.missingHost :=
  ⟨rfl, rfl⟩

/-- C5 (code bug): with an absolute-path target at HTTP/1.0, no Host header
and local address `127.0.0.1:3000`, the claim says the resolved URL is
`http://127.0.0.1:3000/a`; the live code never falls back to the local
address (that branch is commented out) and errors on the bare path.  The
other conjuncts show the spec's resolver builds exactly the claimed URL. -/
theorem c5_local_addr_fallback_stubbed :
    Request.from_http natFam reqNoHost10 addr0 Protocol.http
      = Except.error "relative URL without a base"
    ∧ localUrlString Protocol.http addr0 "/a" = "http://127.0.0.1:3000/a"
    ∧ specResolve "/a" HttpVersion.http10 [] addr0 Protocol.http
      = Except.ok { scheme := "http", host := "127.0.0.1", port := some 3000,
                    path := "/a", query := none, fragment := none } :=
  ⟨rfl, rfl, rfl⟩

/-- C6 (code bug): an asterisk-form target makes `Request::from_http` fail —
so a 400 response is produced and no handler runs — but the failure is
`Url::parse`'s generic parse error, not an `UnsupportedTarget` classification
(that branch is commented out; the spec's resolver, second conjunct, does
classify it so). -/
theorem c6_asterisk_form_target :
    Request.from_http natFam reqStar addr0 Protocol.http
      = Except.error "relative URL without a base"
    ∧ specResolve "*" HttpVersion.http11 [] addr0 Protocol.http
      = Except.error ResolutionError.unsupportedTarget
    ∧ (ironService hOk503 addr0 reqStar).httpRes = Except.ok { status := 400, body := "" }
    ∧ (ironService hOk503 addr0 reqStar).handlerInvoked = false :=
  ⟨rfl, rfl, rfl, rfl⟩

/-- C7: whenever `Request::from_http` returns an error, the dispatch loop logs
the error and responds with the synthesized bad-request response — status 400,
empty body — without invoking the handler. -/
theorem c7_bad_request_on_construction_error (τ : Nat → Type) (ε : Type)
    (handler : Request τ → Except (HandlerFailure τ ε) (Response τ))
    (addr : SocketAddr) (req : HttpRequest) (e : String)
    (h : Request.from_http τ req addr Protocol.http = Except.error e) :
    (ironService handler addr req).httpRes = Except.ok { status := 400, body := "" }
    ∧ (ironService handler addr req).log = [LogEntry.errorCreating e]
    ∧ (ironService handler addr req).handlerInvoked = false := by
  refine ⟨?_, ?_, ?_⟩ <;> simp only [ironService, h] <;> rfl

/-- Witness for C7 at the concrete bare-path request `reqPath`. -/
theorem c7_witness :
    Request.from_http natFam reqPath addr0 Protocol.http
      = Except.error "relative URL without a base"
    ∧ ((ironService hFail503 addr0 reqPath).httpRes = Except.ok { status := 400, body := "" }
       ∧ (ironService hFail503 addr0 reqPath).log
           = [LogEntry.errorCreating "relative URL without a base"]
       ∧ (ironService hFail503 addr0 reqPath).handlerInvoked = false) :=
  ⟨rfl, c7_bad_request_on_construction_error natFam String hFail503 addr0 reqPath
    "relative URL without a base" rfl⟩

/-- C8: extension-store operations are keyed purely on the type identity:
operations on one type never observe or affect another type's slot, a `set`
followed by a `get` of the same type returns the just-stored value, a
`remove` followed by a `get` returns absent, and the store
`Request::from_http` installs is empty. -/
theorem c8_extensions_type_keyed (τ : Nat → Type) (k1 k2 : Nat) (hne : k1 ≠ k2)
    (v : τ k1) (m : TypeMap τ) (req : HttpRequest) (addr : SocketAddr)
    (proto : Protocol) (r : Request τ)
    (hr : Request.from_http τ req addr proto = Except.ok r) :
    TypeMap.get k2 (TypeMap.set k1 v m) = TypeMap.get k2 m
    ∧ TypeMap.get k2 (TypeMap.remove k1 m) = TypeMap.get k2 m
    ∧ TypeMap.get k1 (TypeMap.set k1 v m) = some v
    ∧ TypeMap.get k1 (TypeMap.remove k1 m) = none
    ∧ r.extensions = TypeMap.empty := by
  refine ⟨?_, ?_, ?_, ?_, ?_⟩
  · show (if h : k2 = k1 then some (cast (congrArg τ h).symm v) else m k2) = m k2
    rw [dif_neg (fun h => hne h.symm)]
  · show (if k2 = k1 then none else m k2) = m k2
    rw [if_neg (fun h => hne h.symm)]
  · show (if h : k1 = k1 then some (cast (congrArg τ h).symm v) else m k1) = some v
    rw [dif_pos rfl]
    exact congrArg some (cast_eq _ v)
  · show (if k1 = k1 then none else m k1) = none
    rw [if_pos rfl]
  · revert hr
    unfold Request.from_http
    cases Url.parse req.uri with
    | ok u => intro hr; cases hr; rfl
    | error e => intro hr; exact Except.noConfusion hr

/-- Witness for C8 at type identities 0 and 1 over `natFam`, with the store
built by `Request.from_http` on the concrete request `reqOk`. -/
theorem c8_witness :
    (0 : Nat) ≠ 1
    ∧ Request.from_http natFam reqOk addr0 Protocol.http = Except.ok rOk
    ∧ (TypeMap.get 1 (TypeMap.set 0 (42 : Nat) mEmpty) = TypeMap.get 1 mEmpty
       ∧ TypeMap.get 1 (TypeMap.remove 0 mEmpty) = TypeMap.get 1 mEmpty
       ∧ TypeMap.get 0 (TypeMap.set 0 (42 : Nat) mEmpty) = some 42
       ∧ TypeMap.get 0 (TypeMap.remove 0 mEmpty) = none
       ∧ rOk.extensions = TypeMap.empty) :=
  ⟨by decide, rfl,
    c8_extensions_type_keyed natFam 0 1 (by decide) 42 mEmpty reqOk addr0
      Protocol.http rOk rfl⟩

/-- C9: the default `Timeouts` are keep-alive 5 s, read 30 s and write 1 s
(each an independent optional duration), and `Iron::new` carries these
defaults together with a thread count of 8 × the available parallelism. -/
theorem c9_defaults (H : Type) (handler : H) (numCpus : Nat) :
    Timeouts.default.keep_alive = some (5 : Nat)
    ∧ Timeouts.default.read = some (30 : Nat)
    ∧ Timeouts.default.write = some (1 : Nat)
    ∧ (Iron.new numCpus handler).timeouts = Timeouts.default
    ∧ (Iron.new numCpus handler).threads = 8 * numCpus :=
  ⟨rfl, rfl, rfl, rfl, rfl⟩

/-- C10: for every request `Request::from_http` accepts, the HTTP response
`Iron::http` hands back to the transport is a freshly created response with
an empty body and the default status (200), whatever response the handler
returned or the failure carried. -/
theorem c10_fresh_empty_response (τ : Nat → Type) (ε : Type)
    (handler : Request τ → Except (HandlerFailure τ ε) (Response τ))
    (addr : SocketAddr) (req : HttpRequest)
    (h : ∃ r, Request.from_http τ req addr Protocol.http = Except.ok r) :
    (ironService handler addr req).httpRes = Except.ok (HttpResponse.new "")
    ∧ HttpResponse.new "" = { status := 200, body := "" } := by
  obtain ⟨r, hr⟩ := h
  refine ⟨?_, rfl⟩
  simp only [ironService, hr]
  cases hh : handler r <;> simp [hh]

/-- Witness for C10 at the concrete request `reqOk` with the handler that
returns a 503 response. -/
theorem c10_witness :
    (∃ r, Request.from_http natFam reqOk addr0 Protocol.http = Except.ok r)
    ∧ ((ironService hOk503 addr0 reqOk).httpRes = Except.ok (HttpResponse.new "")
       ∧ HttpResponse.new "" = { status := 200, body := "" }) :=
  ⟨⟨rOk, rfl⟩, c10_fresh_empty_response natFam String hOk503 addr0 reqOk ⟨rOk, rfl⟩⟩

/-- C1 (code bug): the dispatch loop selects the handler's response (or the
failure's carried response, logging the failure against the request's debug
output), but then discards it: the value handed back to the transport is a
fresh status-200 empty-body response in both cases, not the selected
envelope (whose status here is 503) — the `write_back` call is commented
out in src/iron.rs. -/
theorem c1_selected_response_discarded :
    (ironService hOk503 addr0 reqOk).selectedRes = some resp503
    ∧ (ironService hOk503 addr0 reqOk).httpRes = Except.ok { status := 200, body := "" }
    ∧ (ironService hFail503 addr0 reqOk).selectedRes = some resp503
    ∧ (ironService hFail503 addr0 reqOk).httpRes = Except.ok { status := 200, body := "" }
    ∧ (ironService hFail503 addr0 reqOk).log = [LogEntry.errorHandling rOk.debugFmt "boom"]
    ∧ resp503.status = 503 :=
  ⟨rfl, rfl, rfl, rfl, rfl, rfl⟩

end Iron
